import Mathlib

/-!
Verification of `patient-registration.resource.tsx` from
`packages/esm-patient-registration-app/src/patient-registration/`.

The module is a set of thin HTTP client functions. We shallowly embed it:

* JavaScript values that flow through the untyped parts (fetch responses,
  optional chaining) are modelled by the inductive `JsValue`;
* runtime errors (`InvalidCharacterError` from `atob`, `TypeError` from
  property access / destructuring on nullish values) by `JsError`;
* each request-building function is embedded as a Lean function producing
  the single `Request` it hands to `openmrsFetch` (url, method, headers,
  body, abort signal), so "issues exactly one POST to P" becomes an
  equation on the produced `Request`;
* the transport (`openmrsFetch` used as an async data fetcher) is an
  environment `env : String → Except JsError JsValue` mapping a url to the
  parsed response or a transport error; functions that fetch also return
  the list of urls they queried, in order;
* the reactive collaborator `useSWR` is embedded by its documented
  contract: a `null` key issues no fetch and yields the idle state,
  otherwise the cached state for the key is consulted.
-/

set_option autoImplicit false

namespace PatientRegistrationResource

/-- JavaScript runtime errors relevant to this module: `InvalidCharacterError`
thrown by `atob` on non-base64 input, and `TypeError` thrown by property
access, indexing or destructuring on `null`/`undefined`. Transport errors
from `openmrsFetch` (network failure, non-2xx) are `transport e`. -/
inductive JsError where
  | invalidCharacter
  | typeError
  | transport (msg : String)
deriving Repr, DecidableEq

/-- Untyped JavaScript values as they appear in fetch responses. -/
inductive JsValue where
  | null
  | undefined
  | str (s : String)
  | num (n : Int)
  | arr (elems : List JsValue)
  | obj (fields : List (String × JsValue))

/-- A value is nullish (`null` or `undefined`): optional chaining
short-circuits on it, plain access throws on it. -/
def JsValue.nullish : JsValue → Bool
  | .null => true
  | .undefined => true
  | _ => false

/-- Plain property read `v.k` on a non-nullish value: on an object the
first binding wins (our constructed objects have unique keys), a missing
key reads as `undefined`; property reads on primitives yield `undefined`
(the string/array `length` property is modelled separately where used). -/
def JsValue.get (v : JsValue) (k : String) : JsValue :=
  match v with
  | .obj fields => (fields.lookup k).getD .undefined
  | _ => .undefined

/-- Optional property read `v?.k`: `undefined` on nullish `v`, else a
plain read. -/
def JsValue.optGet (v : JsValue) (k : String) : JsValue :=
  if v.nullish then .undefined else v.get k

/-- Index read `v[i]` for a non-nullish `v`: array element or `undefined`
past the end; indexing a primitive or plain object at a numeric index is
modelled as `undefined`. -/
def JsValue.index (v : JsValue) (i : Nat) : JsValue :=
  match v with
  | .arr elems => (elems.get? i).getD .undefined
  | _ => .undefined

/-- JavaScript truthiness. -/
def JsValue.truthy : JsValue → Bool
  | .null => false
  | .undefined => false
  | .str s => !s.isEmpty
  | .num n => n != 0
  | .arr _ => true
  | .obj _ => true

/-! ### `String.prototype.split` with a one-character separator

`s.split(sep)` for a single-character separator: the list of maximal
groups between occurrences of `sep`; `"".split(sep)` is `[""]`. -/

/-- Split a character list on a separator character, JS-style. Never
returns the empty list. -/
def splitOnChar (sep : Char) : List Char → List (List Char)
  | [] => [[]]
  | c :: rest =>
    match splitOnChar sep rest with
    | [] => [[]]
    | g :: gs => if c = sep then [] :: g :: gs else (c :: g) :: gs

/-- Embedding of `s.split(sep)` for a one-character separator. -/
def jsSplit (sep : Char) (s : String) : List String :=
  (splitOnChar sep s.data).map List.asString

/-! ### `atob`: forgiving base64 decode (WHATWG)

`atob` removes ASCII whitespace, strips up to two trailing `=` when the
length is a multiple of four, fails when the remaining length is `1 mod 4`
or a character is outside the base64 alphabet, and otherwise decodes six
bits per character, discarding leftover bits. It returns a binary string;
we return the byte sequence directly (the code only reads the char codes
and the length). -/

/-- ASCII whitespace removed by forgiving base64 decode. -/
def isB64Whitespace (c : Char) : Bool :=
  c = ' ' || c = '\t' || c = '\n' || c = '\x0c' || c = '\r'

/-- Value of a base64 alphabet character, `none` outside the alphabet. -/
def b64Val (c : Char) : Option Nat :=
  if 65 ≤ c.toNat ∧ c.toNat ≤ 90 then some (c.toNat - 65)
  else if 97 ≤ c.toNat ∧ c.toNat ≤ 122 then some (c.toNat - 71)
  else if 48 ≤ c.toNat ∧ c.toNat ≤ 57 then some (c.toNat + 4)
  else if c = '+' then some 62
  else if c = '/' then some 63
  else none

/-- Strip one or two trailing `=` padding characters. -/
def stripB64Pad (l : List Char) : List Char :=
  match l.reverse with
  | '=' :: '=' :: rest => rest.reverse
  | '=' :: rest => rest.reverse
  | _ => l

/-- Decode a list of six-bit values into bytes: four values give three
bytes, a trailing pair gives one byte, a trailing triple two bytes
(leftover bits discarded, as the WHATWG algorithm does). -/
def b64DecodeVals : List Nat → List Nat
  | a :: b :: c :: d :: rest =>
    (a * 4 + b / 16) :: ((b % 16) * 16 + c / 4) :: ((c % 4) * 64 + d) :: b64DecodeVals rest
  | [a, b] => [a * 4 + b / 16]
  | [a, b, c] => [a * 4 + b / 16, (b % 16) * 16 + c / 4]
  | _ => []

/-- `atob(s)`: the decoded byte sequence, or `none` on failure
(`InvalidCharacterError`). -/
def atob (s : String) : Option (List Nat) :=
  let cleaned := s.data.filter (fun c => !isB64Whitespace c)
  let unpadded := if cleaned.length % 4 = 0 then stripB64Pad cleaned else cleaned
  if unpadded.length % 4 = 1 then none
  else (unpadded.mapM b64Val).map b64DecodeVals

/-! ### `dataURItoFile` -/

/-- The `File` built by `dataURItoFile`: a blob of bytes with a declared
MIME type, wrapped under a file name. -/
structure JsFile where
  bytes : List Nat
  mime : String
  name : String
deriving Repr, DecidableEq

/--
```
function dataURItoFile(dataURI: string) {
  const byteString = atob(dataURI.split(',')[1]);
  const mimeString = dataURI.split(',')[0].split(':')[1].split(';')[0];
  const buffer = new Uint8Array(byteString.length);
  for (let i = 0; i < byteString.length; i++) buffer[i] = byteString.charCodeAt(i);
  const blob = new Blob([buffer], { type: mimeString });
  return new File([blob], 'patient-photo.png');
}
```
When the URI has no comma, `split(',')[1]` is `undefined` and `atob`
coerces its argument to the string `"undefined"` before decoding (which
fails). If the left part has no `:`, `split(':')[1]` is `undefined` and
calling `.split` on it throws a `TypeError`. The byte-copy loop is the
identity on the decoded byte sequence. -/
def dataURItoFile (dataURI : String) : Except JsError JsFile :=
  let pieces := jsSplit ',' dataURI
  match atob ((pieces.get? 1).getD "undefined") with
  | none => .error .invalidCharacter
  | some byteString =>
    match (jsSplit ':' ((pieces.get? 0).getD "undefined")).get? 1 with
    | none => .error .typeError
    | some mid =>
      let mimeString := ((jsSplit ';' mid).get? 0).getD "undefined"
      .ok { bytes := byteString, mime := mimeString, name := "patient-photo.png" }

/-! ### Requests

Each write function constructs exactly one request and hands it to
`openmrsFetch`; we embed the function as the `Request` it builds. Payload
types (`Patient`, `Encounter`, `Relationship`, `PatientIdentifier`) are
imported opaque transport shapes, embedded as one-field wrappers. -/

/-- Opaque `Patient` payload (pass-through, unvalidated at this layer). -/
structure Patient where
  payload : String
deriving Repr, DecidableEq

/-- Opaque `Encounter` payload. -/
structure Encounter where
  payload : String
deriving Repr, DecidableEq

/-- Opaque `Relationship` payload. -/
structure Relationship where
  payload : String
deriving Repr, DecidableEq

/-- Opaque `PatientIdentifier` payload. -/
structure PatientIdentifier where
  payload : String
deriving Repr, DecidableEq

/-- The JSON bodies this module sends. -/
inductive JsonPayload where
  | patientBody (p : Option Patient)
  | encounterBody (e : Encounter)
  | emptyObj
  | relationshipBody (r : Relationship)
  | relationshipTypeObj (relationshipType : String)
  | patientIdentifierBody (pid : PatientIdentifier)
  | identifierObj (identifier : String)
deriving Repr, DecidableEq

/-- One field of the `FormData` built by `savePatientPhoto`: a text value,
the converted file, or the `JSON.stringify`-ed metadata object
`{person, concept, groupMembers: [], obsDatetime}`. -/
inductive FormField where
  | text (value : String)
  | filePart (f : JsFile)
  | jsonMeta (person concept : String) (groupMembers : List String) (obsDatetime : String)
deriving Repr, DecidableEq

/-- A request body: absent, a JSON payload, or a multipart form. -/
inductive Body where
  | noBody
  | json (payload : JsonPayload)
  | multipart (fields : List (String × FormField))
deriving Repr, DecidableEq

/-- The request handed to `openmrsFetch`: url, method (`none` means the
transport default), whether the headers carry
`Content-Type: application/json`, the body, and whether an abort
controller signal is attached. -/
structure Request where
  url : String
  method : Option String
  contentTypeJson : Bool
  body : Body
  hasSignal : Bool
deriving Repr, DecidableEq

/-- `savePatient(patient, updatePatientUuid?)`: POST to
`/ws/rest/v1/patient/${updatePatientUuid || ''}` with JSON content type
and the patient (possibly `null`) as body. -/
def savePatient (patient : Option Patient) (updatePatientUuid : Option String) : Request :=
  { url := "/ws/rest/v1/patient/" ++ updatePatientUuid.getD ""
    method := some "POST"
    contentTypeJson := true
    body := .json (.patientBody patient)
    hasSignal := true }

/-- `saveEncounter(encounter)`: POST to `/ws/rest/v1/encounter`. -/
def saveEncounter (encounter : Encounter) : Request :=
  { url := "/ws/rest/v1/encounter"
    method := some "POST"
    contentTypeJson := true
    body := .json (.encounterBody encounter)
    hasSignal := true }

/-- `generateIdentifier(source)`: POST of `{}` to the id-generator. -/
def generateIdentifier (source : String) : Request :=
  { url := "/ws/rest/v1/idgen/identifiersource/" ++ source ++ "/identifier"
    method := some "POST"
    contentTypeJson := true
    body := .json .emptyObj
    hasSignal := true }

/-- `deletePersonName(nameUuid, personUuid)`: DELETE, no headers, no body. -/
def deletePersonName (nameUuid personUuid : String) : Request :=
  { url := "/ws/rest/v1/person/" ++ personUuid ++ "/name/" ++ nameUuid
    method := some "DELETE"
    contentTypeJson := false
    body := .noBody
    hasSignal := true }

/-- `saveRelationship(relationship)`: POST to `/ws/rest/v1/relationship`. -/
def saveRelationship (relationship : Relationship) : Request :=
  { url := "/ws/rest/v1/relationship"
    method := some "POST"
    contentTypeJson := true
    body := .json (.relationshipBody relationship)
    hasSignal := true }

/-- `updateRelationship(relationshipUuid, relationship)`: POST of
`{relationshipType: relationship.relationshipType}`. -/
def updateRelationship (relationshipUuid : String) (relationshipType : String) : Request :=
  { url := "/ws/rest/v1/relationship/" ++ relationshipUuid
    method := some "POST"
    contentTypeJson := true
    body := .json (.relationshipTypeObj relationshipType)
    hasSignal := true }

/-- `deleteRelationship(relationshipUuid)`: DELETE with a
`Content-Type: application/json` header and no body. -/
def deleteRelationship (relationshipUuid : String) : Request :=
  { url := "/ws/rest/v1/relationship/" ++ relationshipUuid
    method := some "DELETE"
    contentTypeJson := true
    body := .noBody
    hasSignal := true }

/-- `savePatientPhoto(patientUuid, content, url, date, conceptUuid)`:
converts `content` with `dataURItoFile` (a conversion error propagates,
the fetch never happens), then POSTs a three-field multipart form to the
caller-supplied url, without a `Content-Type` header. -/
def savePatientPhoto (patientUuid content url date conceptUuid : String) :
    Except JsError Request :=
  match dataURItoFile content with
  | .error e => .error e
  | .ok f =>
    .ok { url := url
          method := some "POST"
          contentTypeJson := false
          body := .multipart
            [("patient", .text patientUuid),
             ("file", .filePart f),
             ("json", .jsonMeta patientUuid conceptUuid [] date)]
          hasSignal := true }

/-- `addPatientIdentifier(patientUuid, patientIdentifier)`: POST. -/
def addPatientIdentifier (patientUuid : String) (patientIdentifier : PatientIdentifier) : Request :=
  { url := "/ws/rest/v1/patient/" ++ patientUuid ++ "/identifier/"
    method := some "POST"
    contentTypeJson := true
    body := .json (.patientIdentifierBody patientIdentifier)
    hasSignal := true }

/-- `updatePatientIdentifier(patientUuid, identifierUuid, identifier)`:
POST of `{identifier}`. -/
def updatePatientIdentifier (patientUuid identifierUuid identifier : String) : Request :=
  { url := "/ws/rest/v1/patient/" ++ patientUuid ++ "/identifier/" ++ identifierUuid
    method := some "POST"
    contentTypeJson := true
    body := .json (.identifierObj identifier)
    hasSignal := true }

/-- `deletePatientIdentifier(patientUuid, patientIdentifierUuid)`: DELETE
with a `Content-Type: application/json` header and no body. -/
def deletePatientIdentifier (patientUuid patientIdentifierUuid : String) : Request :=
  { url := "/ws/rest/v1/patient/" ++ patientUuid ++ "/identifier/" ++ patientIdentifierUuid ++ "?purge"
    method := some "DELETE"
    contentTypeJson := true
    body := .noBody
    hasSignal := true }

/-! ### `fetchPerson`

The transport is an environment mapping a url to the parsed response (a
`JsValue` carrying at least `status` and `data` in practice) or a
transport error. `fetchPerson` also returns the urls it queried, in
order. -/

/-- The API root used by `fetchPerson`. -/
def BASE_API : String := "/ws/rest/v1"

/--
Body of the `try` block of `fetchPerson`:
```
const { data: { results } } = await openmrsFetch(`${BASE_API}/person?q=${query}`, { signal });
if (results.length > 0) { return { data: { results } }; }
return openmrsFetch(`${BASE_API}/patient?q=${query}`, { signal });
```
Destructuring `{ data: { results } }` throws a `TypeError` when the
response or its `data` field is nullish; `results.length` throws when
`results` is nullish; `.length` of a non-array non-string reads as
`undefined`, and `undefined > 0` is false. -/
def fetchPersonTryBody (env : String → Except JsError JsValue) (query : String) :
    Except JsError JsValue × List String :=
  let personEndpoint := BASE_API ++ "/person?q=" ++ query
  match env personEndpoint with
  | .error e => (.error e, [personEndpoint])
  | .ok resp =>
    if resp.nullish then (.error .typeError, [personEndpoint])
    else
      let d := resp.get "data"
      if d.nullish then (.error .typeError, [personEndpoint])
      else
        let results := d.get "results"
        match results with
        | .null => (.error .typeError, [personEndpoint])
        | .undefined => (.error .typeError, [personEndpoint])
        | .arr elems =>
          if elems.length > 0 then
            (.ok (.obj [("data", .obj [("results", .arr elems)])]), [personEndpoint])
          else
            let patientEndpoint := BASE_API ++ "/patient?q=" ++ query
            (env patientEndpoint, [personEndpoint, patientEndpoint])
        | .str s =>
          if s.length > 0 then
            (.ok (.obj [("data", .obj [("results", .str s)])]), [personEndpoint])
          else
            let patientEndpoint := BASE_API ++ "/patient?q=" ++ query
            (env patientEndpoint, [personEndpoint, patientEndpoint])
        | _ =>
          let patientEndpoint := BASE_API ++ "/patient?q=" ++ query
          (env patientEndpoint, [personEndpoint, patientEndpoint])

/-- `fetchPerson(query)` wraps the body in
`try { ... } catch (error) { throw error }`: a caught error is rethrown
unchanged. -/
def fetchPerson (env : String → Except JsError JsValue) (query : String) :
    Except JsError JsValue × List String :=
  match fetchPersonTryBody env query with
  | (.error e, calls) => (.error e, calls)
  | (.ok v, calls) => (.ok v, calls)

/-! ### `usePatientPhoto`

The reactive collaborator `useSWR(key, fetcher)` is embedded by its
contract: a `null` key issues no fetch and yields the idle state
(`data` undefined, no error, `isLoading` false); a string key yields the
collaborator's state for that key (its `data` is the fetch response, a
`JsValue`, `undefined` while absent) and counts as one issued fetch. -/

/-- The `{data, error, isLoading}` triple `useSWR` yields for a key. -/
structure SWRState where
  data : JsValue
  error : Option JsError
  isLoading : Bool

/-- `useSWR(key, fetcher)`, returning its state and the list of fetches
issued (empty for a `null` key, the key itself otherwise). -/
def useSWR (key : Option String) (state : String → SWRState) : SWRState × List String :=
  match key with
  | none => ({ data := .undefined, error := none, isLoading := false }, [])
  | some k => (state k, [k])

/-- The `{dateTime, imageSrc}` projection built from the first
observation; its fields hold whatever values the accesses produce. -/
structure PhotoData where
  dateTime : JsValue
  imageSrc : JsValue

/-- The hook's return value `{data, isError, isLoading}`; `data = none`
embeds `null`. -/
structure UsePatientPhotoResult where
  data : Option PhotoData
  isError : Option JsError
  isLoading : Bool

/-- The query url of `usePatientPhoto`. -/
def obsUrl (patientUuid patientPhotoUuid : String) : String :=
  "/ws/rest/v1/obs?patient=" ++ patientUuid ++ "&concept=" ++ patientPhotoUuid ++ "&v=full"

/--
```
const { data, error, isLoading } = useSWR(patientUuid ? url : null, openmrsFetch);
const item = data?.data?.results[0];
return { data: item ? { dateTime: item?.obsDatetime, imageSrc: item?.value?.links?.uri } : null,
         isError: error, isLoading };
```
`patientPhotoUuid` is the configured `concepts.patientPhotoUuid`;
`state` is the collaborator's cache. The chain `data?.data?.results[0]`
short-circuits to `undefined` when `data` or `data.data` is nullish, but
the `results` read is a plain access: when it yields a nullish value the
indexing `[0]` throws a `TypeError`. The hook returns the result paired
with the list of fetches issued. -/
def usePatientPhoto (patientPhotoUuid : String) (state : String → SWRState)
    (patientUuid : String) : Except JsError UsePatientPhotoResult × List String :=
  let url := obsUrl patientUuid patientPhotoUuid
  let (swr, calls) := useSWR (if patientUuid.isEmpty then none else some url) state
  let itemE : Except JsError JsValue :=
    if swr.data.nullish then .ok .undefined
    else
      let d := swr.data.get "data"
      if d.nullish then .ok .undefined
      else
        let results := d.get "results"
        if results.nullish then .error .typeError
        else .ok (results.index 0)
  match itemE with
  | .error e => (.error e, calls)
  | .ok item =>
    (.ok { data :=
             if item.truthy then
               some { dateTime := item.optGet "obsDatetime"
                      imageSrc := ((item.optGet "value").optGet "links").optGet "uri" }
             else none
           isError := swr.error
           isLoading := swr.isLoading }, calls)

/-! ### Lemmas about `splitOnChar` -/

theorem data_asString (l : List Char) : (List.asString l).data = l := rfl

theorem asString_data (s : String) : List.asString s.data = s := rfl

theorem splitOnChar_append_left {sep : Char} :
    ∀ {x y g : List Char} {gs : List (List Char)}, sep ∉ x →
      splitOnChar sep y = g :: gs → splitOnChar sep (x ++ y) = (x ++ g) :: gs
  | [], _, _, _, _, hy => by simpa using hy
  | c :: x, y, g, gs, h, hy => by
    have hc : ¬(c = sep) := by
      rintro rfl
      exact h (List.mem_cons_self _ _)
    have hx : sep ∉ x := fun m => h (List.mem_cons_of_mem _ m)
    have ih := splitOnChar_append_left hx hy
    simp [splitOnChar, ih, hc]

theorem splitOnChar_of_not_mem {sep : Char} {l : List Char} (h : sep ∉ l) :
    splitOnChar sep l = [l] := by
  have hy : splitOnChar sep ([] : List Char) = [] :: [] := rfl
  simpa using splitOnChar_append_left (y := []) h hy

/-! ### C2 and C6: `dataURItoFile` -/

/-- **C2.** For every valid data URI `data:<mime>;base64,<payload>` (the
mime type free of `,`/`:`/`;`, the payload free of `,`, and the payload
base64-decodable to the byte sequence `bs`), `dataURItoFile` produces the
file whose blob bytes are exactly the decoded bytes (so the byte length is
the decoded length of the payload), whose MIME type is the declared mime,
and whose name is `patient-photo.png` regardless of the MIME type. -/
theorem dataURItoFile_valid_uri (mime payload : String) (bs : List Nat)
    (hm1 : ',' ∉ mime.data) (hm2 : ':' ∉ mime.data) (hm3 : ';' ∉ mime.data)
    (hp : ',' ∉ payload.data) (hdec : atob payload = some bs) :
    dataURItoFile ("data:" ++ mime ++ ";base64," ++ payload) =
      .ok { bytes := bs, mime := mime, name := "patient-photo.png" } ∧
    bs.length = ((atob payload).getD []).length := by
  constructor
  · have hpay : splitOnChar ',' payload.data = [payload.data] := splitOnChar_of_not_mem hp
    have hlit : splitOnChar ','
        (';' :: 'b' :: 'a' :: 's' :: 'e' :: '6' :: '4' :: ',' :: payload.data)
        = [';', 'b', 'a', 's', 'e', '6', '4'] :: [payload.data] := by
      simp [splitOnChar, hpay]
    have hmid : splitOnChar ','
        (mime.data ++ (';' :: 'b' :: 'a' :: 's' :: 'e' :: '6' :: '4' :: ',' :: payload.data))
        = (mime.data ++ [';', 'b', 'a', 's', 'e', '6', '4']) :: [payload.data] :=
      splitOnChar_append_left hm1 hlit
    have hdata : ("data:" ++ mime ++ ";base64," ++ payload).data
        = 'd' :: 'a' :: 't' :: 'a' :: ':' ::
          (mime.data ++ (';' :: 'b' :: 'a' :: 's' :: 'e' :: '6' :: '4' :: ',' :: payload.data)) := by
      simp [String.data_append]
    have hsplit1 : jsSplit ',' ("data:" ++ mime ++ ";base64," ++ payload)
        = [List.asString ('d' :: 'a' :: 't' :: 'a' :: ':' ::
            (mime.data ++ [';', 'b', 'a', 's', 'e', '6', '4'])), payload] := by
      simp [jsSplit, hdata, splitOnChar, hmid, asString_data]
    have htail : splitOnChar ':' (mime.data ++ [';', 'b', 'a', 's', 'e', '6', '4'])
        = [mime.data ++ [';', 'b', 'a', 's', 'e', '6', '4']] := by
      refine splitOnChar_of_not_mem ?_
      intro hmem
      rcases List.mem_append.mp hmem with h | h
      · exact hm2 h
      · simp at h
    have hsplit2 : jsSplit ':' (List.asString ('d' :: 'a' :: 't' :: 'a' :: ':' ::
          (mime.data ++ [';', 'b', 'a', 's', 'e', '6', '4'])))
        = [List.asString ['d', 'a', 't', 'a'],
           List.asString (mime.data ++ [';', 'b', 'a', 's', 'e', '6', '4'])] := by
      simp [jsSplit, data_asString, splitOnChar, htail]
    have hbase : splitOnChar ';' (['b', 'a', 's', 'e', '6', '4'] : List Char)
        = [['b', 'a', 's', 'e', '6', '4']] := by
      simp [splitOnChar]
    have hsplit3 : jsSplit ';' (List.asString (mime.data ++ [';', 'b', 'a', 's', 'e', '6', '4']))
        = [mime, List.asString ['b', 'a', 's', 'e', '6', '4']] := by
      have h2 : splitOnChar ';' (mime.data ++ (';' :: ['b', 'a', 's', 'e', '6', '4']))
          = (mime.data ++ []) :: [['b', 'a', 's', 'e', '6', '4']] := by
        refine splitOnChar_append_left hm3 ?_
        simp [splitOnChar, hbase]
      simp only [List.append_nil] at h2
      simp [jsSplit, data_asString, h2, asString_data]
    simp [dataURItoFile, hsplit1, hdec, hsplit2, hsplit3]
  · simp [hdec]

/-- Closed witness for `dataURItoFile_valid_uri` at
`data:image/png;base64,AAAA`. -/
theorem dataURItoFile_valid_uri_witness :
    dataURItoFile ("data:" ++ "image/png" ++ ";base64," ++ "AAAA") =
      .ok { bytes := [0, 0, 0], mime := "image/png", name := "patient-photo.png" } :=
  (dataURItoFile_valid_uri "image/png" "AAAA" [0, 0, 0]
    (by decide) (by decide) (by decide) (by decide) (by decide)).1

/-- **C6.** For every data URI with no comma, `split(',')[1]` is
`undefined`, `atob` receives the string `"undefined"` and raises an
`InvalidCharacterError`; the error is not caught locally and propagates to
the caller of `savePatientPhoto`, whose fetch never happens. -/
theorem dataURItoFile_no_comma (s : String) (h : ',' ∉ s.data) :
    dataURItoFile s = .error .invalidCharacter ∧
    ∀ patientUuid url date conceptUuid,
      savePatientPhoto patientUuid s url date conceptUuid = .error .invalidCharacter := by
  have hsplit : jsSplit ',' s = [s] := by
    simp [jsSplit, splitOnChar_of_not_mem h, asString_data]
  have hA : atob "undefined" = none := by decide
  have hfile : dataURItoFile s = .error .invalidCharacter := by
    simp [dataURItoFile, hsplit, hA]
  exact ⟨hfile, fun _ _ _ _ => by simp [savePatientPhoto, hfile]⟩

/-- Closed witness for `dataURItoFile_no_comma` at `"no-comma-here"`. -/
theorem dataURItoFile_no_comma_witness :
    dataURItoFile "no-comma-here" = .error .invalidCharacter ∧
    savePatientPhoto "pt-1" "no-comma-here" "/url" "2024-01-01" "concept-1" =
      .error .invalidCharacter := by
  have h := dataURItoFile_no_comma "no-comma-here" (by decide)
  exact ⟨h.1, h.2 "pt-1" "/url" "2024-01-01" "concept-1"⟩

/-! ### C3: the `Content-Type` header policy -/

/-- **C3 counterexample.** `deleteRelationship("rel-1")` has no body, yet
its headers carry `Content-Type: application/json`: the header is not
attached "exactly when the request body is JSON" and is not omitted for
requests with no body. -/
theorem deleteRelationship_header_counterexample :
    (deleteRelationship "rel-1").contentTypeJson = true ∧
    (deleteRelationship "rel-1").body = .noBody :=
  ⟨rfl, rfl⟩

/-- **C3 amended.** Every JSON-bodied request carries
`Content-Type: application/json`, and the multipart request of
`savePatientPhoto` omits it; among the bodiless requests,
`deletePersonName` omits the header while `deleteRelationship` and
`deletePatientIdentifier` attach it despite having no body. -/
theorem contentType_header_policy :
    (∀ p u, (savePatient p u).contentTypeJson = true ∧
      (savePatient p u).body = .json (.patientBody p)) ∧
    (∀ e, (saveEncounter e).contentTypeJson = true ∧
      (saveEncounter e).body = .json (.encounterBody e)) ∧
    (∀ s, (generateIdentifier s).contentTypeJson = true ∧
      (generateIdentifier s).body = .json .emptyObj) ∧
    (∀ r, (saveRelationship r).contentTypeJson = true ∧
      (saveRelationship r).body = .json (.relationshipBody r)) ∧
    (∀ u t, (updateRelationship u t).contentTypeJson = true ∧
      (updateRelationship u t).body = .json (.relationshipTypeObj t)) ∧
    (∀ u pid, (addPatientIdentifier u pid).contentTypeJson = true ∧
      (addPatientIdentifier u pid).body = .json (.patientIdentifierBody pid)) ∧
    (∀ u iu i, (updatePatientIdentifier u iu i).contentTypeJson = true ∧
      (updatePatientIdentifier u iu i).body = .json (.identifierObj i)) ∧
    (∀ pu c url d cu req, savePatientPhoto pu c url d cu = .ok req →
      req.contentTypeJson = false ∧ ∃ fs, req.body = .multipart fs) ∧
    (∀ n pu, (deletePersonName n pu).contentTypeJson = false ∧
      (deletePersonName n pu).body = .noBody) ∧
    (∀ u, (deleteRelationship u).contentTypeJson = true ∧
      (deleteRelationship u).body = .noBody) ∧
    (∀ pu piu, (deletePatientIdentifier pu piu).contentTypeJson = true ∧
      (deletePatientIdentifier pu piu).body = .noBody) := by
  refine ⟨fun p u => ⟨rfl, rfl⟩, fun e => ⟨rfl, rfl⟩, fun s => ⟨rfl, rfl⟩,
    fun r => ⟨rfl, rfl⟩, fun u t => ⟨rfl, rfl⟩, fun u pid => ⟨rfl, rfl⟩,
    fun u iu i => ⟨rfl, rfl⟩, fun pu c url d cu req hreq => ?_,
    fun n pu => ⟨rfl, rfl⟩, fun u => ⟨rfl, rfl⟩, fun pu piu => ⟨rfl, rfl⟩⟩
  unfold savePatientPhoto at hreq
  cases hfile : dataURItoFile c with
  | error e => rw [hfile] at hreq; exact absurd hreq (by simp)
  | ok f =>
    rw [hfile] at hreq
    cases hreq
    exact ⟨rfl, _, rfl⟩

/-- Closed witness for `contentType_header_policy`: its `savePatientPhoto`
conjunct applied to a concrete successful conversion. -/
theorem contentType_header_policy_witness :
    ({ url := "/photo-url"
       method := some "POST"
       contentTypeJson := false
       body := .multipart
         [("patient", .text "pt-1"),
          ("file", .filePart { bytes := [0, 0, 0], mime := "image/png", name := "patient-photo.png" }),
          ("json", .jsonMeta "pt-1" "concept-1" [] "2024-01-01")]
       hasSignal := true } : Request).contentTypeJson = false ∧
    ∃ fs, ({ url := "/photo-url"
             method := some "POST"
             contentTypeJson := false
             body := .multipart
               [("patient", .text "pt-1"),
                ("file", .filePart { bytes := [0, 0, 0], mime := "image/png", name := "patient-photo.png" }),
                ("json", .jsonMeta "pt-1" "concept-1" [] "2024-01-01")]
             hasSignal := true } : Request).body = .multipart fs :=
  contentType_header_policy.2.2.2.2.2.2.2.1 "pt-1" "data:image/png;base64,AAAA"
    "/photo-url" "2024-01-01" "concept-1" _ rfl

/-! ### C5: `savePatient` -/

/-- **C5.** For every patient payload, `savePatient(patient, "abc")`
builds exactly one POST request to `/ws/rest/v1/patient/abc` with
`Content-Type: application/json` and the patient object as body; with no
uuid supplied the POST goes to `/ws/rest/v1/patient/`. -/
theorem savePatient_request (p : Option Patient) :
    savePatient p (some "abc") =
      { url := "/ws/rest/v1/patient/abc"
        method := some "POST"
        contentTypeJson := true
        body := .json (.patientBody p)
        hasSignal := true } ∧
    savePatient p none =
      { url := "/ws/rest/v1/patient/"
        method := some "POST"
        contentTypeJson := true
        body := .json (.patientBody p)
        hasSignal := true } :=
  ⟨rfl, rfl⟩

/-! ### C4, C7, C10: `usePatientPhoto` -/

/-- **C4.** Called with an empty `patientUuid`, the hook passes a `null`
key to the collaborator, so no fetch is issued (the list of issued calls
is empty) and the result is the idle state: `data: null`, no error,
`isLoading: false`. -/
theorem usePatientPhoto_empty_uuid (patientPhotoUuid : String) (state : String → SWRState) :
    usePatientPhoto patientPhotoUuid state "" =
      (.ok { data := none, isError := none, isLoading := false }, []) :=
  rfl

/-- **C10.** A defined response object whose `results` field is absent
makes the hook throw a `TypeError`: the chain `data?.data?.results[0]`
guards `data` and `data.data`, but the indexing of `results` is a plain
access on an `undefined` value. Concretely, with the collaborator holding
`{data: {}}` for the key, the hook throws. -/
theorem usePatientPhoto_missing_results_throws :
    usePatientPhoto "photo-concept"
      (fun _ => { data := .obj [("data", .obj [])], error := none, isLoading := false })
      "pt-1" =
    (.error .typeError, ["/ws/rest/v1/obs?patient=pt-1&concept=photo-concept&v=full"]) :=
  rfl

/-- **C7.** For a non-empty `patientUuid`, with the collaborator holding a
well-shaped observation response `{data: {results: elems}}` for the query
url: an empty observation list yields `data: null`, and a non-empty one
yields `{dateTime, imageSrc}` read off the first element (`dateTime` from
its `obsDatetime`, `imageSrc` from its `value.links.uri`), the first
element being an object (hence truthy). -/
theorem usePatientPhoto_obs_projection (patientPhotoUuid patientUuid : String)
    (state : String → SWRState) (elems : List JsValue) (err : Option JsError) (il : Bool)
    (huuid : patientUuid ≠ "")
    (hstate : state (obsUrl patientUuid patientPhotoUuid) =
      { data := .obj [("data", .obj [("results", .arr elems)])], error := err, isLoading := il }) :
    (elems = [] →
      (usePatientPhoto patientPhotoUuid state patientUuid).1 =
        .ok { data := none, isError := err, isLoading := il }) ∧
    (∀ x rest, elems = x :: rest → x.truthy = true →
      (usePatientPhoto patientPhotoUuid state patientUuid).1 =
        .ok { data := some { dateTime := x.optGet "obsDatetime"
                             imageSrc := ((x.optGet "value").optGet "links").optGet "uri" }
              isError := err, isLoading := il }) := by
  have hne : patientUuid.isEmpty = false := by
    cases hh : patientUuid.isEmpty
    · rfl
    · exact absurd ((String.isEmpty_iff patientUuid).mp hh) huuid
  constructor
  · rintro rfl
    simp [usePatientPhoto, useSWR, hne, hstate, JsValue.nullish, JsValue.get,
      JsValue.index, JsValue.truthy]
  · rintro x rest rfl hx
    have hxn : x.nullish = false := by
      cases x <;> simp_all [JsValue.truthy, JsValue.nullish]
    simp [usePatientPhoto, useSWR, hne, hstate, JsValue.nullish, JsValue.get,
      JsValue.index, hx, JsValue.optGet, hxn]

/-- Closed witness for `usePatientPhoto_obs_projection`: one observation
`{obsDatetime: "2024-01-01", value: {links: {uri: "/img"}}}` in the
collaborator's cache for patient `pt-1`. -/
theorem usePatientPhoto_obs_projection_witness :
    (usePatientPhoto "concept-1"
      (fun _ => { data := .obj [("data", .obj [("results", .arr
                   [.obj [("obsDatetime", .str "2024-01-01"),
                          ("value", .obj [("links", .obj [("uri", .str "/img")])])]])])]
                  error := none, isLoading := false })
      "pt-1").1 =
      .ok { data := some { dateTime := .str "2024-01-01", imageSrc := .str "/img" }
            isError := none, isLoading := false } := by
  have h := usePatientPhoto_obs_projection "concept-1" "pt-1"
    (fun _ => { data := .obj [("data", .obj [("results", .arr
                 [.obj [("obsDatetime", .str "2024-01-01"),
                        ("value", .obj [("links", .obj [("uri", .str "/img")])])]])])]
                error := none, isLoading := false })
    [.obj [("obsDatetime", .str "2024-01-01"),
           ("value", .obj [("links", .obj [("uri", .str "/img")])])]]
    none false (by decide) rfl
  exact h.2 _ _ rfl rfl

/-! ### C1, C8, C9: `fetchPerson` -/

/-- Casework on a well-shaped person-search response, shared by the
`fetchPerson` theorems below. -/
theorem fetchPerson_shaped_cases (env : String → Except JsError JsValue) (query : String)
    (resp : JsValue) (elems : List JsValue)
    (hresp : env (BASE_API ++ "/person?q=" ++ query) = .ok resp)
    (hshape : resp.get "data" = .obj [("results", .arr elems)]) :
    (elems ≠ [] →
      fetchPerson env query =
        (.ok (.obj [("data", .obj [("results", .arr elems)])]),
         [BASE_API ++ "/person?q=" ++ query])) ∧
    (elems = [] →
      fetchPerson env query =
        (env (BASE_API ++ "/patient?q=" ++ query),
         [BASE_API ++ "/person?q=" ++ query, BASE_API ++ "/patient?q=" ++ query])) := by
  have hnn : resp.nullish = false := by
    cases resp <;> simp_all [JsValue.nullish, JsValue.get]
  constructor
  · intro hne
    have hlen : 0 < elems.length := List.length_pos.mpr hne
    simp only [fetchPerson, fetchPersonTryBody, hresp, hnn, hshape]
    simp [JsValue.nullish, JsValue.get, hlen]
  · rintro rfl
    simp only [fetchPerson, fetchPersonTryBody, hresp, hnn, hshape]
    simp [JsValue.nullish, JsValue.get]
    cases env (BASE_API ++ "/patient?q=" ++ query) <;> simp

/-- **C1.** `fetchPerson(q)` queries the person search endpoint first;
when the person response is well-shaped (`{data: {results: elems}}` with
`results` an array): a non-empty `elems` makes it return
`{data: {results}}` without touching the patient endpoint, an empty one
makes it query the patient search endpoint with the same query string and
return that response verbatim (calls are listed in order). -/
theorem fetchPerson_person_then_patient (env : String → Except JsError JsValue) (query : String)
    (resp : JsValue) (elems : List JsValue)
    (hresp : env (BASE_API ++ "/person?q=" ++ query) = .ok resp)
    (hshape : resp.get "data" = .obj [("results", .arr elems)]) :
    (elems ≠ [] →
      fetchPerson env query =
        (.ok (.obj [("data", .obj [("results", .arr elems)])]),
         [BASE_API ++ "/person?q=" ++ query])) ∧
    (elems = [] →
      fetchPerson env query =
        (env (BASE_API ++ "/patient?q=" ++ query),
         [BASE_API ++ "/person?q=" ++ query, BASE_API ++ "/patient?q=" ++ query])) :=
  fetchPerson_shaped_cases env query resp elems hresp hshape

/-- Closed witness for `fetchPerson_person_then_patient`: a person search
with one hit returns the person results and never calls the patient
endpoint. -/
theorem fetchPerson_person_then_patient_witness :
    fetchPerson
      (fun u => if u = "/ws/rest/v1/person?q=jo"
        then .ok (.obj [("status", .num 200),
                        ("data", .obj [("results", .arr [.str "person-1"])])])
        else .error (.transport "unexpected"))
      "jo" =
      (.ok (.obj [("data", .obj [("results", .arr [.str "person-1"])])]),
       ["/ws/rest/v1/person?q=jo"]) := by
  have h := fetchPerson_person_then_patient
    (fun u => if u = "/ws/rest/v1/person?q=jo"
      then .ok (.obj [("status", .num 200),
                      ("data", .obj [("results", .arr [.str "person-1"])])])
      else .error (.transport "unexpected"))
    "jo" (.obj [("status", .num 200), ("data", .obj [("results", .arr [.str "person-1"])])])
    [.str "person-1"] rfl rfl
  exact h.1 (by simp)

/-- **C8.** Transport failures propagate unchanged: the
`try/catch (error) { throw error }` wrapper of `fetchPerson` is a no-op
(the function equals its try-block body on every input), an error of the
person search is returned as-is, and in the fallback case an error of the
patient search is returned as-is — no mapping to domain error kinds
anywhere. -/
theorem fetchPerson_error_propagation :
    (∀ env query, fetchPerson env query = fetchPersonTryBody env query) ∧
    (∀ env query e, env (BASE_API ++ "/person?q=" ++ query) = .error e →
      fetchPerson env query = (.error e, [BASE_API ++ "/person?q=" ++ query])) ∧
    (∀ (env : String → Except JsError JsValue) query resp e,
      env (BASE_API ++ "/person?q=" ++ query) = .ok resp →
      resp.get "data" = .obj [("results", .arr ([] : List JsValue))] →
      env (BASE_API ++ "/patient?q=" ++ query) = .error e →
      (fetchPerson env query).1 = .error e) := by
  refine ⟨fun env query => ?_, fun env query e he => ?_, fun env query resp e hok hshape he => ?_⟩
  · unfold fetchPerson
    rcases h : fetchPersonTryBody env query with ⟨r, calls⟩
    cases r <;> rfl
  · simp [fetchPerson, fetchPersonTryBody, he]
  · have h := (fetchPerson_shaped_cases env query resp [] hok hshape).2 rfl
    rw [h]
    simpa using he

/-- Closed witness for `fetchPerson_error_propagation`: a failing person
search surfaces the transport error unchanged. -/
theorem fetchPerson_error_propagation_witness :
    fetchPerson (fun _ => .error (.transport "network down")) "jo" =
      (.error (.transport "network down"), ["/ws/rest/v1/person?q=jo"]) :=
  fetchPerson_error_propagation.2.1 (fun _ => .error (.transport "network down")) "jo"
    (.transport "network down") rfl

/-- The keys of a JavaScript object value (empty for non-objects). -/
def JsValue.keys : JsValue → List String
  | .obj fields => fields.map Prod.fst
  | _ => []

/-- **C9.** When the person search yields a non-empty results list, the
value returned is `{data: {results}}` and nothing else: its only key is
`data`, reading `status` on it gives `undefined`, and under `data` the
only key is `results` — the transport response fields present in the
fallback branch's verbatim return are absent here. -/
theorem fetchPerson_nonempty_returns_results_only
    (env : String → Except JsError JsValue) (query : String)
    (resp : JsValue) (elems : List JsValue)
    (hresp : env (BASE_API ++ "/person?q=" ++ query) = .ok resp)
    (hshape : resp.get "data" = .obj [("results", .arr elems)])
    (hne : elems ≠ []) :
    ∃ v, fetchPerson env query = (.ok v, [BASE_API ++ "/person?q=" ++ query]) ∧
      v.keys = ["data"] ∧
      v.get "status" = .undefined ∧
      (v.get "data").keys = ["results"] ∧
      (v.get "data").get "results" = .arr elems := by
  refine ⟨.obj [("data", .obj [("results", .arr elems)])],
    (fetchPerson_shaped_cases env query resp elems hresp hshape).1 hne,
    rfl, rfl, rfl, rfl⟩

/-- Closed witness for `fetchPerson_nonempty_returns_results_only`: the
person response carries `status: 200`, the returned value does not. -/
theorem fetchPerson_nonempty_returns_results_only_witness :
    ∃ v, fetchPerson
        (fun u => if u = "/ws/rest/v1/person?q=jo"
          then .ok (.obj [("status", .num 200),
                          ("data", .obj [("results", .arr [.str "person-1"])])])
          else .error (.transport "unexpected"))
        "jo" = (.ok v, ["/ws/rest/v1/person?q=jo"]) ∧
      v.keys = ["data"] ∧
      v.get "status" = .undefined ∧
      (v.get "data").keys = ["results"] ∧
      (v.get "data").get "results" = .arr [.str "person-1"] :=
  fetchPerson_nonempty_returns_results_only
    (fun u => if u = "/ws/rest/v1/person?q=jo"
      then .ok (.obj [("status", .num 200),
                      ("data", .obj [("results", .arr [.str "person-1"])])])
      else .error (.transport "unexpected"))
    "jo" (.obj [("status", .num 200), ("data", .obj [("results", .arr [.str "person-1"])])])
    [.str "person-1"] rfl rfl (by simp)

end PatientRegistrationResource
